import Mathlib

/-!
Verification of the deployment-config rollback generator
(`pkg/apps/apiserver/registry/rollback/rest.go`).

The REST endpoint `REST.Create` is embedded as the pure function
`createRollback`, with the external collaborators (request-context
namespace, validation, the deployment-config store, the
replication-controller store holding encoded historical records, and the
decoder) passed in as explicit arguments.  The structural sub-documents of
a deployment config (pod template, replication metadata, strategy,
triggers) are opaque to this code, so they are type parameters.

The merger `RollbackGenerator.GenerateRollback` is implemented outside the
provided sources; it is modelled from the specification (see
`generateRollback`).  Everything else is translated directly from
`rest.go`.
-/

set_option autoImplicit false

/-- The caller-visible error kinds produced by the apimachinery error
constructors used in `rest.go`: `NewBadRequest`, `NewInvalid`,
`NewInternalError`, and (for comparison; `rest.go` never builds one)
`NewNotFound`. -/
inductive ErrorKind where
  | badRequest
  | invalid
  | notFound
  | internalError
  deriving DecidableEq, Repr

/-- A structured caller-visible error: its kind, the offending field path
(when the error carries field errors), the name of the object it is about,
and the human-readable reason string. -/
structure ApiError where
  kind : ErrorKind
  fieldPath : Option String
  objName : String
  reason : String
  deriving DecidableEq, Repr

/-- The deployment-config document (the spec's *DesiredState*).  The fields
used by the rollback code: `name`, `ns` (namespace), `latestVersion`
(`Status.LatestVersion`, 0 = never deployed), the four opaque structural
sub-documents, and the nilable string-to-string annotation map (modelled as
an optional association list). -/
structure DeploymentConfig (T R S G : Type) where
  name : String
  ns : String
  latestVersion : Int
  template : T
  replicationMeta : R
  strategy : S
  triggers : G
  annotations : Option (List (String × String))
  deriving DecidableEq, Repr

/-- The rollback request's spec: the requested revision (0 = one revision
back from latest) and the four independent inclusion flags. -/
structure DeploymentConfigRollbackSpec where
  revision : Int
  includeTriggers : Bool
  includeTemplate : Bool
  includeReplicationMeta : Bool
  includeStrategy : Bool
  deriving DecidableEq, Repr

/-- The rollback request (`DeploymentConfigRollback`): target name, the
annotation overrides, and the spec. -/
structure DeploymentConfigRollback where
  name : String
  updatedAnnotations : List (String × String)
  spec : DeploymentConfigRollbackSpec
  deriving DecidableEq, Repr

/-- `newInvalidError` from `rest.go`: a field-level `Invalid` error on the
request's `name` field, carrying the rollback's name and a reason. -/
def newInvalidError (rollback : DeploymentConfigRollback) (reason : String) : ApiError :=
  { kind := ErrorKind.invalid, fieldPath := some "name",
    objName := rollback.name, reason := reason }

/-- Modelled from the spec (§3, §4.1): the external helper
`appsutil.DeploymentNameForConfigVersion`, which names the realized
instance (historical record) deterministically from
`(resourceName, revision)`. -/
def deploymentNameForConfigVersion (name : String) (revision : Int) : String :=
  name ++ "-" ++ toString revision

/-- Modelled from the spec (§4.1): the external helper
`appsutil.LabelForDeploymentConfig`, a human-readable label for a config,
used only inside an error reason string. -/
def labelForDeploymentConfig {T R S G : Type} (config : DeploymentConfig T R S G) : String :=
  config.ns ++ "/" ++ config.name

/-- Overwrite the value at `key` in an association-list map, or append the
pair when the key is absent (the semantics of a Go map assignment
`m[key] = value`). -/
def setAnn (m : List (String × String)) (key value : String) : List (String × String) :=
  if m.any (fun p => p.1 = key) then
    m.map (fun p => if p.1 = key then (key, value) else p)
  else
    m ++ [(key, value)]

/-- The annotation merge of `rest.go` (lines 104-109): if the current
map is nil and there are overrides, start from an empty map; then for every
key in the overrides, set/overwrite that key. -/
def mergeAnnotations (current : Option (List (String × String)))
    (updated : List (String × String)) : Option (List (String × String)) :=
  match current with
  | none =>
      if updated.length > 0 then
        some (updated.foldl (fun m kv => setAnn m kv.1 kv.2) [])
      else
        none
  | some m => some (updated.foldl (fun m kv => setAnn m kv.1 kv.2) m)

/-- Modelled from the spec (§4.2, §4.3): the Rollback Merger
`RollbackGenerator.GenerateRollback`, whose implementation is not among the
provided sources (only its call site in `rest.go` is).  Per the spec it
starts from a copy of `from_` (preserving name, namespace, revision
counters and every unmasked field) and, for each inclusion flag that is
true, overwrites the corresponding structural sub-field with the value from
`to_`. -/
def generateRollback {T R S G : Type} (from_ to_ : DeploymentConfig T R S G)
    (spec : DeploymentConfigRollbackSpec) : DeploymentConfig T R S G :=
  { from_ with
    template := if spec.includeTemplate then to_.template else from_.template
    replicationMeta :=
      if spec.includeReplicationMeta then to_.replicationMeta else from_.replicationMeta
    strategy := if spec.includeStrategy then to_.strategy else from_.strategy
    triggers := if spec.includeTriggers then to_.triggers else from_.triggers }

/-- The tail of `REST.Create` after the revision has been resolved: fetch
the realized instance (historical record) named from
`(config name, revision)` from the replication-controller store, decode it,
merge the request's annotation overrides into the current config, and hand
both documents to the merger.  Store and decode failures become field-level
invalid errors, as in `rest.go`. -/
def lookupAndGenerate {T R S G H : Type} (ns : String)
    (rollback : DeploymentConfigRollback)
    (getRC : String → String → Option H)
    (decodeDC : H → Option (DeploymentConfig T R S G))
    (from_ : DeploymentConfig T R S G) (revision : Int) :
    Except ApiError (DeploymentConfig T R S G) :=
  let dname := deploymentNameForConfigVersion from_.name revision
  match getRC ns dname with
  | none =>
      Except.error (newInvalidError rollback
        ("replicationcontrollers \"" ++ dname ++ "\" not found"))
  | some rc =>
      match decodeDC rc with
      | none =>
          Except.error (newInvalidError rollback
            "couldn't decode deployment config from deployment")
      | some to_ =>
          let from2 :=
            { from_ with
              annotations := mergeAnnotations from_.annotations rollback.updatedAnnotations }
          Except.ok (generateRollback from2 to_ rollback.spec)

/-- `REST.Create` from `rest.go`, with the collaborators explicit:
`namespace?` is the namespace from the request context (`none` = absent),
`validate` is the external request validation (returning a list of field
error messages), `createValidation` the admission hook's verdict, `getDC`
the deployment-config store, `getRC` the replication-controller store and
`decodeDC` the historical-record decoder.  The two `legacyscheme`
conversions are identities here (both representations share one shape); the
type assertion on the incoming object is discharged by typing. -/
def createRollback {T R S G H : Type} (namespace? : Option String)
    (rollback : DeploymentConfigRollback)
    (validate : DeploymentConfigRollback → List String)
    (createValidation : Option ApiError)
    (getDC : String → String → Option (DeploymentConfig T R S G))
    (getRC : String → String → Option H)
    (decodeDC : H → Option (DeploymentConfig T R S G)) :
    Except ApiError (DeploymentConfig T R S G) :=
  match namespace? with
  | none =>
      Except.error
        { kind := ErrorKind.badRequest, fieldPath := none, objName := "",
          reason := "namespace parameter required." }
  | some ns =>
      if (validate rollback).length > 0 then
        Except.error
          { kind := ErrorKind.invalid, fieldPath := none, objName := rollback.name,
            reason := String.intercalate ", " (validate rollback) }
      else
        match createValidation with
        | some e => Except.error e
        | none =>
            match getDC ns rollback.name with
            | none =>
                Except.error (newInvalidError rollback
                  ("cannot get deployment config \"" ++ rollback.name ++ "\""))
            | some from_ =>
                if from_.latestVersion = 0 then
                  Except.error (newInvalidError rollback
                    "cannot rollback an undeployed config")
                else if from_.latestVersion = 1 then
                  Except.error (newInvalidError rollback
                    ("no previous deployment exists for " ++ labelForDeploymentConfig from_))
                else if from_.latestVersion = rollback.spec.revision then
                  Except.error (newInvalidError rollback
                    ("version " ++ toString rollback.spec.revision ++ " is already the latest"))
                else
                  let revision :=
                    if rollback.spec.revision > 0 then rollback.spec.revision
                    else from_.latestVersion - 1
                  lookupAndGenerate ns rollback getRC decodeDC from_ revision

/-! ### Concrete fixtures used to exercise the theorems -/

/-- A current config with five deployed revisions. -/
def exCur : DeploymentConfig Nat Nat Nat Nat :=
  { name := "cfg", ns := "ns1", latestVersion := 5, template := 10,
    replicationMeta := 20, strategy := 30, triggers := 40,
    annotations := some [("a", "1")] }

/-- A decoded historical config (revision 4 of `exCur`). -/
def exTgt : DeploymentConfig Nat Nat Nat Nat :=
  { name := "cfg", ns := "ns1", latestVersion := 4, template := 11,
    replicationMeta := 21, strategy := 31, triggers := 41,
    annotations := some [("x", "9")] }

/-- A rollback request for `cfg` with revision 0 ("previous"), all
inclusion flags set, and two annotation overrides. -/
def exRollback : DeploymentConfigRollback :=
  { name := "cfg", updatedAnnotations := [("a", "2"), ("b", "3")],
    spec := { revision := 0, includeTriggers := true, includeTemplate := true,
              includeReplicationMeta := true, includeStrategy := true } }

/-- External validation that accepts every request. -/
def exValidate : DeploymentConfigRollback → List String := fun _ => []

/-- A deployment-config store holding exactly `exCur`. -/
def exGetDC : String → String → Option (DeploymentConfig Nat Nat Nat Nat) :=
  fun ns name => if ns = "ns1" then if name = "cfg" then some exCur else none else none

/-- A replication-controller store holding exactly the record for
revision 4 of `cfg` (records are bare numbers here; decoding is separate). -/
def exGetRC : String → String → Option Nat :=
  fun ns name => if ns = "ns1" then if name = "cfg-4" then some 7 else none else none

/-- A decoder that recovers `exTgt` from any record. -/
def exDecode : Nat → Option (DeploymentConfig Nat Nat Nat Nat) := fun _ => some exTgt

/-! ### Theorems -/

/-- C10: if the request context carries no namespace, `Create` fails
immediately with the bad-request error "namespace parameter required.",
whatever the request, the validators and the stores — so before request
validation and before any store read. -/
theorem create_without_namespace_bad_request {T R S G H : Type}
    (rollback : DeploymentConfigRollback)
    (validate : DeploymentConfigRollback → List String)
    (createValidation : Option ApiError)
    (getDC : String → String → Option (DeploymentConfig T R S G))
    (getRC : String → String → Option H)
    (decodeDC : H → Option (DeploymentConfig T R S G)) :
    createRollback none rollback validate createValidation getDC getRC decodeDC =
      Except.error
        { kind := ErrorKind.badRequest, fieldPath := none, objName := "",
          reason := "namespace parameter required." } := rfl

/-- C2: whenever the fetched config has `latestVersion = 0`, `Create` fails
with the undeployed-config invalid error, for every request and every
replication-controller store and decoder (so no historical-record lookup
can influence the outcome). -/
theorem create_undeployed_fails {T R S G H : Type}
    (ns : String) (rollback : DeploymentConfigRollback)
    (validate : DeploymentConfigRollback → List String)
    (getDC : String → String → Option (DeploymentConfig T R S G))
    (getRC : String → String → Option H)
    (decodeDC : H → Option (DeploymentConfig T R S G))
    (cur : DeploymentConfig T R S G)
    (hval : validate rollback = [])
    (hget : getDC ns rollback.name = some cur)
    (h0 : cur.latestVersion = 0) :
    createRollback (some ns) rollback validate none getDC getRC decodeDC =
      Except.error (newInvalidError rollback "cannot rollback an undeployed config") := by
  unfold createRollback
  simp only [hval, hget, List.length_nil]
  simp [h0]

/-- C2 witness: a config that was never deployed, a request asking for
revision 3, and a record store that would even have a record — the call
still fails with the undeployed error. -/
theorem create_undeployed_fails_witness :
    createRollback (some "ns1")
        { name := "cfg", updatedAnnotations := [],
          spec := { revision := 3, includeTriggers := true, includeTemplate := true,
                    includeReplicationMeta := true, includeStrategy := true } }
        exValidate none
        (fun ns name => if ns = "ns1" then if name = "cfg" then
            some { exCur with latestVersion := 0 } else none else none)
        exGetRC exDecode =
      Except.error (newInvalidError
        { name := "cfg", updatedAnnotations := [],
          spec := { revision := 3, includeTriggers := true, includeTemplate := true,
                    includeReplicationMeta := true, includeStrategy := true } }
        "cannot rollback an undeployed config") := by
  exact create_undeployed_fails "ns1" _ exValidate _ exGetRC exDecode
    { exCur with latestVersion := 0 } rfl rfl rfl

/-- C3: whenever the fetched config has `latestVersion = 1`, `Create` fails
with the no-previous-deployment invalid error, for every request — the
`latestVersion = 1` arm of the switch precedes the
`rollback.spec.revision` arm, so this holds even when the requested
revision is 1. -/
theorem create_no_previous_fails {T R S G H : Type}
    (ns : String) (rollback : DeploymentConfigRollback)
    (validate : DeploymentConfigRollback → List String)
    (getDC : String → String → Option (DeploymentConfig T R S G))
    (getRC : String → String → Option H)
    (decodeDC : H → Option (DeploymentConfig T R S G))
    (cur : DeploymentConfig T R S G)
    (hval : validate rollback = [])
    (hget : getDC ns rollback.name = some cur)
    (h1 : cur.latestVersion = 1) :
    createRollback (some ns) rollback validate none getDC getRC decodeDC =
      Except.error (newInvalidError rollback
        ("no previous deployment exists for " ++ labelForDeploymentConfig cur)) := by
  unfold createRollback
  simp only [hval, hget, List.length_nil]
  simp [h1]

/-- C3 witness: `latestVersion = 1` and requested revision 1 — the
no-previous-revision error wins over the already-latest error. -/
theorem create_no_previous_fails_witness :
    createRollback (some "ns1")
        { name := "cfg", updatedAnnotations := [],
          spec := { revision := 1, includeTriggers := true, includeTemplate := true,
                    includeReplicationMeta := true, includeStrategy := true } }
        exValidate none
        (fun ns name => if ns = "ns1" then if name = "cfg" then
            some { exCur with latestVersion := 1 } else none else none)
        exGetRC exDecode =
      Except.error (newInvalidError
        { name := "cfg", updatedAnnotations := [],
          spec := { revision := 1, includeTriggers := true, includeTemplate := true,
                    includeReplicationMeta := true, includeStrategy := true } }
        ("no previous deployment exists for "
          ++ labelForDeploymentConfig { exCur with latestVersion := (1 : Int) })) := by
  exact create_no_previous_fails "ns1" _ exValidate _ exGetRC exDecode
    { exCur with latestVersion := 1 } rfl rfl rfl

/-- C4: with `latestVersion > 1` and a (necessarily nonzero) requested
revision equal to it, `Create` fails with the already-latest invalid error,
for every replication-controller store and decoder — before any
historical-record lookup. -/
theorem create_already_latest_fails {T R S G H : Type}
    (ns : String) (rollback : DeploymentConfigRollback)
    (validate : DeploymentConfigRollback → List String)
    (getDC : String → String → Option (DeploymentConfig T R S G))
    (getRC : String → String → Option H)
    (decodeDC : H → Option (DeploymentConfig T R S G))
    (cur : DeploymentConfig T R S G)
    (hval : validate rollback = [])
    (hget : getDC ns rollback.name = some cur)
    (hlt : 1 < cur.latestVersion)
    (heq : rollback.spec.revision = cur.latestVersion) :
    createRollback (some ns) rollback validate none getDC getRC decodeDC =
      Except.error (newInvalidError rollback
        ("version " ++ toString rollback.spec.revision ++ " is already the latest")) := by
  unfold createRollback
  simp only [hval, hget, List.length_nil]
  rw [if_neg (show ¬cur.latestVersion = 0 by omega)]
  rw [if_neg (show ¬cur.latestVersion = 1 by omega)]
  rw [if_pos heq.symm]
  simp

/-- C4 witness: `latestVersion = 3`, requested revision 3. -/
theorem create_already_latest_fails_witness :
    createRollback (some "ns1")
        { name := "cfg", updatedAnnotations := [],
          spec := { revision := 3, includeTriggers := true, includeTemplate := true,
                    includeReplicationMeta := true, includeStrategy := true } }
        exValidate none
        (fun ns name => if ns = "ns1" then if name = "cfg" then
            some { exCur with latestVersion := 3 } else none else none)
        exGetRC exDecode =
      Except.error (newInvalidError
        { name := "cfg", updatedAnnotations := [],
          spec := { revision := 3, includeTriggers := true, includeTemplate := true,
                    includeReplicationMeta := true, includeStrategy := true } }
        "version 3 is already the latest") := by
  exact create_already_latest_fails "ns1" _ exValidate _ exGetRC exDecode
    { exCur with latestVersion := 3 } rfl rfl (by decide) rfl

/-- C1: when the fetched config has `latestVersion > 1` and the three guard
checks pass (not undeployed, a previous revision exists, not already the
latest), `Create` proceeds to the historical-record lookup with effective
target revision `rollback.spec.revision` when that is positive and
`latestVersion - 1` otherwise (in particular for requested revision 0). -/
theorem create_resolves_previous_or_requested {T R S G H : Type}
    (ns : String) (rollback : DeploymentConfigRollback)
    (validate : DeploymentConfigRollback → List String)
    (getDC : String → String → Option (DeploymentConfig T R S G))
    (getRC : String → String → Option H)
    (decodeDC : H → Option (DeploymentConfig T R S G))
    (cur : DeploymentConfig T R S G)
    (hval : validate rollback = [])
    (hget : getDC ns rollback.name = some cur)
    (hlt : 1 < cur.latestVersion)
    (hne : cur.latestVersion ≠ rollback.spec.revision) :
    createRollback (some ns) rollback validate none getDC getRC decodeDC =
      lookupAndGenerate ns rollback getRC decodeDC cur
        (if rollback.spec.revision > 0 then rollback.spec.revision
         else cur.latestVersion - 1) := by
  unfold createRollback
  simp only [hval, hget, List.length_nil]
  rw [if_neg (show ¬cur.latestVersion = 0 by omega)]
  rw [if_neg (show ¬cur.latestVersion = 1 by omega)]
  rw [if_neg hne]
  simp

/-- C1 witness: `latestVersion = 5` and requested revision 0 resolve to
target revision 4. -/
theorem create_resolves_previous_or_requested_witness :
    createRollback (some "ns1") exRollback exValidate none exGetDC exGetRC exDecode =
      lookupAndGenerate "ns1" exRollback exGetRC exDecode exCur 4 := by
  have h := create_resolves_previous_or_requested "ns1" exRollback exValidate
    exGetDC exGetRC exDecode exCur rfl rfl (by decide) (by decide)
  have h4 : (if exRollback.spec.revision > 0 then exRollback.spec.revision
      else exCur.latestVersion - 1) = 4 := by decide
  exact h.trans (congrArg (lookupAndGenerate "ns1" exRollback exGetRC exDecode exCur) h4)

/-- C5: on the success path, the generated document's annotations are
exactly `mergeAnnotations current.annotations rollback.updatedAnnotations`
— start from the current config's annotations (an empty map when nil) and
set/overwrite every override key — applied to the pre-rollback source
document and left untouched by the structural generation. -/
theorem create_merges_annotations_into_result {T R S G H : Type}
    (ns : String) (rollback : DeploymentConfigRollback)
    (validate : DeploymentConfigRollback → List String)
    (getDC : String → String → Option (DeploymentConfig T R S G))
    (getRC : String → String → Option H)
    (decodeDC : H → Option (DeploymentConfig T R S G))
    (cur : DeploymentConfig T R S G) (rc : H) (tgt : DeploymentConfig T R S G)
    (hval : validate rollback = [])
    (hget : getDC ns rollback.name = some cur)
    (hlt : 1 < cur.latestVersion)
    (hne : cur.latestVersion ≠ rollback.spec.revision)
    (hrc : getRC ns (deploymentNameForConfigVersion cur.name
        (if rollback.spec.revision > 0 then rollback.spec.revision
         else cur.latestVersion - 1)) = some rc)
    (hdec : decodeDC rc = some tgt) :
    createRollback (some ns) rollback validate none getDC getRC decodeDC =
      Except.ok (generateRollback
        { cur with annotations := mergeAnnotations cur.annotations rollback.updatedAnnotations }
        tgt rollback.spec) ∧
    (generateRollback
        { cur with annotations := mergeAnnotations cur.annotations rollback.updatedAnnotations }
        tgt rollback.spec).annotations =
      mergeAnnotations cur.annotations rollback.updatedAnnotations := by
  constructor
  · unfold createRollback
    simp only [hval, hget, List.length_nil]
    rw [if_neg (show ¬cur.latestVersion = 0 by omega)]
    rw [if_neg (show ¬cur.latestVersion = 1 by omega)]
    rw [if_neg hne]
    unfold lookupAndGenerate
    simp only [hrc, hdec]
    simp
  · rfl

/-- C5 witness: current annotations `{"a":"1"}` with overrides
`{"a":"2","b":"3"}` produce final annotations `{"a":"2","b":"3"}` on the
generated document. -/
theorem create_merges_annotations_witness :
    createRollback (some "ns1") exRollback exValidate none exGetDC exGetRC exDecode =
      Except.ok (generateRollback
        { exCur with
          annotations := mergeAnnotations exCur.annotations exRollback.updatedAnnotations }
        exTgt exRollback.spec) ∧
    mergeAnnotations exCur.annotations exRollback.updatedAnnotations =
      some [("a", "2"), ("b", "3")] := by
  have h := create_merges_annotations_into_result "ns1" exRollback exValidate
    exGetDC exGetRC exDecode exCur 7 exTgt rfl rfl (by decide) (by decide) rfl rfl
  exact ⟨h.1, rfl⟩

/-- C6: merging any two documents with an all-true mask takes all four
structural sub-fields from the target while keeping the current document's
name, namespace and latest revision; and no mask whatsoever changes
`latestVersion`. -/
theorem generateRollback_all_true_mask {T R S G : Type}
    (cur tgt : DeploymentConfig T R S G) (rev : Int) :
    (generateRollback cur tgt
        { revision := rev, includeTriggers := true, includeTemplate := true,
          includeReplicationMeta := true, includeStrategy := true }).template = tgt.template ∧
    (generateRollback cur tgt
        { revision := rev, includeTriggers := true, includeTemplate := true,
          includeReplicationMeta := true, includeStrategy := true }).replicationMeta =
      tgt.replicationMeta ∧
    (generateRollback cur tgt
        { revision := rev, includeTriggers := true, includeTemplate := true,
          includeReplicationMeta := true, includeStrategy := true }).strategy = tgt.strategy ∧
    (generateRollback cur tgt
        { revision := rev, includeTriggers := true, includeTemplate := true,
          includeReplicationMeta := true, includeStrategy := true }).triggers = tgt.triggers ∧
    (generateRollback cur tgt
        { revision := rev, includeTriggers := true, includeTemplate := true,
          includeReplicationMeta := true, includeStrategy := true }).name = cur.name ∧
    (generateRollback cur tgt
        { revision := rev, includeTriggers := true, includeTemplate := true,
          includeReplicationMeta := true, includeStrategy := true }).ns = cur.ns ∧
    (generateRollback cur tgt
        { revision := rev, includeTriggers := true, includeTemplate := true,
          includeReplicationMeta := true, includeStrategy := true }).latestVersion =
      cur.latestVersion ∧
    ∀ spec2 : DeploymentConfigRollbackSpec,
      (generateRollback cur tgt spec2).latestVersion = cur.latestVersion :=
  ⟨rfl, rfl, rfl, rfl, rfl, rfl, rfl, fun _ => rfl⟩

/-- C7: an all-false mask reproduces the current document's four structural
sub-fields; a template-only mask takes just the target's template and keeps
the current replication metadata, strategy and triggers; and the core does
not reject any mask — after a successful record lookup and decode,
`lookupAndGenerate` returns `Except.ok` for an arbitrary spec, the
all-flags-false one included. -/
theorem generateRollback_all_false_and_template_only {T R S G H : Type}
    (cur tgt : DeploymentConfig T R S G) (rev rev2 : Int)
    (ns : String) (rollback : DeploymentConfigRollback)
    (getRC : String → String → Option H)
    (decodeDC : H → Option (DeploymentConfig T R S G))
    (revision : Int) (rc : H) (tgt2 : DeploymentConfig T R S G)
    (hrc : getRC ns (deploymentNameForConfigVersion cur.name revision) = some rc)
    (hdec : decodeDC rc = some tgt2) :
    (generateRollback cur tgt
        { revision := rev, includeTriggers := false, includeTemplate := false,
          includeReplicationMeta := false, includeStrategy := false }).template =
      cur.template ∧
    (generateRollback cur tgt
        { revision := rev, includeTriggers := false, includeTemplate := false,
          includeReplicationMeta := false, includeStrategy := false }).replicationMeta =
      cur.replicationMeta ∧
    (generateRollback cur tgt
        { revision := rev, includeTriggers := false, includeTemplate := false,
          includeReplicationMeta := false, includeStrategy := false }).strategy =
      cur.strategy ∧
    (generateRollback cur tgt
        { revision := rev, includeTriggers := false, includeTemplate := false,
          includeReplicationMeta := false, includeStrategy := false }).triggers =
      cur.triggers ∧
    (generateRollback cur tgt
        { revision := rev2, includeTriggers := false, includeTemplate := true,
          includeReplicationMeta := false, includeStrategy := false }).template =
      tgt.template ∧
    (generateRollback cur tgt
        { revision := rev2, includeTriggers := false, includeTemplate := true,
          includeReplicationMeta := false, includeStrategy := false }).replicationMeta =
      cur.replicationMeta ∧
    (generateRollback cur tgt
        { revision := rev2, includeTriggers := false, includeTemplate := true,
          includeReplicationMeta := false, includeStrategy := false }).strategy =
      cur.strategy ∧
    (generateRollback cur tgt
        { revision := rev2, includeTriggers := false, includeTemplate := true,
          includeReplicationMeta := false, includeStrategy := false }).triggers =
      cur.triggers ∧
    lookupAndGenerate ns rollback getRC decodeDC cur revision =
      Except.ok (generateRollback
        { cur with annotations := mergeAnnotations cur.annotations rollback.updatedAnnotations }
        tgt2 rollback.spec) := by
  refine ⟨rfl, rfl, rfl, rfl, rfl, rfl, rfl, rfl, ?_⟩
  unfold lookupAndGenerate
  simp only [hrc, hdec]

/-- A rollback request with every inclusion flag false (the structural
no-op case). -/
def exRollbackAllFalse : DeploymentConfigRollback :=
  { name := "cfg", updatedAnnotations := [],
    spec := { revision := 0, includeTriggers := false, includeTemplate := false,
              includeReplicationMeta := false, includeStrategy := false } }

/-- C7 witness: at concrete documents, record 7 at `cfg-4` decodes, and the
all-flags-false request is not rejected — the lookup stage returns a
generated document. -/
theorem generateRollback_all_false_and_template_only_witness :
    exGetRC "ns1" (deploymentNameForConfigVersion exCur.name 4) = some 7 ∧
    exDecode 7 = some exTgt ∧
    lookupAndGenerate "ns1" exRollbackAllFalse exGetRC exDecode exCur 4 =
      Except.ok (generateRollback
        { exCur with
          annotations :=
            mergeAnnotations exCur.annotations exRollbackAllFalse.updatedAnnotations }
        exTgt exRollbackAllFalse.spec) := by
  have h := generateRollback_all_false_and_template_only exCur exTgt 0 0 "ns1"
    exRollbackAllFalse exGetRC exDecode 4 7 exTgt rfl rfl
  exact ⟨rfl, rfl, h.2.2.2.2.2.2.2.2⟩

/-- A current config with three deployed revisions. -/
def exCur3 : DeploymentConfig Nat Nat Nat Nat := { exCur with latestVersion := 3 }

/-- A rollback request asking for revision 5 (beyond `exCur3`'s latest
revision 3). -/
def exRollback5 : DeploymentConfigRollback :=
  { name := "cfg", updatedAnnotations := [],
    spec := { revision := 5, includeTriggers := true, includeTemplate := true,
              includeReplicationMeta := true, includeStrategy := true } }

/-- A deployment-config store holding exactly `exCur3`. -/
def exGetDC3 : String → String → Option (DeploymentConfig Nat Nat Nat Nat) :=
  fun ns name => if ns = "ns1" then if name = "cfg" then some exCur3 else none else none

/-- A replication-controller store holding a record named `cfg-5`. -/
def exGetRC5 : String → String → Option Nat :=
  fun ns name => if ns = "ns1" then if name = "cfg-5" then some 9 else none else none

/-- C8 counterexample: with `latestVersion = 3` and requested revision 5,
`Create` does not reject the request as invalid — when the
replication-controller store happens to hold a record named `cfg-5`, the
call succeeds and returns a generated document. -/
theorem create_over_latest_not_rejected_counterexample :
    createRollback (some "ns1") exRollback5 exValidate none exGetDC3 exGetRC5 exDecode =
      Except.ok (generateRollback
        { exCur3 with
          annotations :=
            mergeAnnotations exCur3.annotations exRollback5.updatedAnnotations }
        exTgt exRollback5.spec) := rfl

/-- C8 amended: a nonzero requested revision strictly greater than
`latestVersion` (with `latestVersion > 1`) passes all three guard checks,
and `Create` proceeds to the historical-record lookup with exactly that
revision as the effective target; it fails only if that lookup (or the
decode) fails, with the store error wrapped as a field-level invalid
error. -/
theorem create_over_latest_proceeds_to_lookup {T R S G H : Type}
    (ns : String) (rollback : DeploymentConfigRollback)
    (validate : DeploymentConfigRollback → List String)
    (getDC : String → String → Option (DeploymentConfig T R S G))
    (getRC : String → String → Option H)
    (decodeDC : H → Option (DeploymentConfig T R S G))
    (cur : DeploymentConfig T R S G)
    (hval : validate rollback = [])
    (hget : getDC ns rollback.name = some cur)
    (hlt : 1 < cur.latestVersion)
    (hgt : cur.latestVersion < rollback.spec.revision) :
    createRollback (some ns) rollback validate none getDC getRC decodeDC =
      lookupAndGenerate ns rollback getRC decodeDC cur rollback.spec.revision := by
  unfold createRollback
  simp only [hval, hget, List.length_nil]
  rw [if_neg (show ¬cur.latestVersion = 0 by omega)]
  rw [if_neg (show ¬cur.latestVersion = 1 by omega)]
  rw [if_neg (show ¬cur.latestVersion = rollback.spec.revision by omega)]
  have hpos : rollback.spec.revision > 0 := by omega
  simp [hpos]

/-- C8 amended witness: `latestVersion = 3`, requested revision 5 — the
call reaches the lookup stage targeting revision 5. -/
theorem create_over_latest_proceeds_to_lookup_witness :
    createRollback (some "ns1") exRollback5 exValidate none exGetDC3 exGetRC5 exDecode =
      lookupAndGenerate "ns1" exRollback5 exGetRC5 exDecode exCur3 5 :=
  create_over_latest_proceeds_to_lookup "ns1" exRollback5 exValidate
    exGetDC3 exGetRC5 exDecode exCur3 rfl rfl (by decide) (by decide)

/-- A deployment-config store with no entries. -/
def exGetDCEmpty : String → String → Option (DeploymentConfig Nat Nat Nat Nat) :=
  fun _ _ => none

/-- C9 counterexample: when the named config does not exist, the error
`Create` produces is of the *invalid* kind (`newInvalidError`), not of the
not-found kind. -/
theorem create_missing_config_counterexample :
    createRollback (some "ns1") exRollback exValidate none exGetDCEmpty exGetRC exDecode =
      Except.error (newInvalidError exRollback "cannot get deployment config \"cfg\"") ∧
    (newInvalidError exRollback "cannot get deployment config \"cfg\"").kind ≠
      ErrorKind.notFound :=
  ⟨rfl, by decide⟩

/-- C9 amended: when the named resource does not exist in the store,
`Create` fails with a field-level error of the invalid (unprocessable)
kind — not the not-found kind — that still preserves the offending field
name `name` and a human-readable reason naming the config. -/
theorem create_missing_config_invalid_error {T R S G H : Type}
    (ns : String) (rollback : DeploymentConfigRollback)
    (validate : DeploymentConfigRollback → List String)
    (getDC : String → String → Option (DeploymentConfig T R S G))
    (getRC : String → String → Option H)
    (decodeDC : H → Option (DeploymentConfig T R S G))
    (hval : validate rollback = [])
    (hget : getDC ns rollback.name = none) :
    createRollback (some ns) rollback validate none getDC getRC decodeDC =
      Except.error (newInvalidError rollback
        ("cannot get deployment config \"" ++ rollback.name ++ "\"")) ∧
    (newInvalidError rollback
        ("cannot get deployment config \"" ++ rollback.name ++ "\"")).kind =
      ErrorKind.invalid ∧
    (newInvalidError rollback
        ("cannot get deployment config \"" ++ rollback.name ++ "\"")).fieldPath =
      some "name" ∧
    (newInvalidError rollback
        ("cannot get deployment config \"" ++ rollback.name ++ "\"")).kind ≠
      ErrorKind.notFound := by
  refine ⟨?_, rfl, rfl, by simp [newInvalidError]⟩
  unfold createRollback
  simp [hval, hget]

/-- C9 amended witness: an empty store at a concrete request. -/
theorem create_missing_config_invalid_error_witness :
    createRollback (some "ns1") exRollback exValidate none exGetDCEmpty exGetRC exDecode =
      Except.error (newInvalidError exRollback
        ("cannot get deployment config \"" ++ exRollback.name ++ "\"")) ∧
    (newInvalidError exRollback
        ("cannot get deployment config \"" ++ exRollback.name ++ "\"")).kind =
      ErrorKind.invalid ∧
    (newInvalidError exRollback
        ("cannot get deployment config \"" ++ exRollback.name ++ "\"")).fieldPath =
      some "name" ∧
    (newInvalidError exRollback
        ("cannot get deployment config \"" ++ exRollback.name ++ "\"")).kind ≠
      ErrorKind.notFound :=
  create_missing_config_invalid_error "ns1" exRollback exValidate
    exGetDCEmpty exGetRC exDecode rfl rfl
